import Mathlib

/-!
Verification development for the nbp-exchange MCP server's token ledger.

This file shallowly embeds the token-consumption subsystem:

* `src/tokenUtils.ts`: `checkTokenBalance`, `deductTokens`,
  `formatInsufficientTokensError` (the in-repo ledger operations);
* `src/shared/tool-executor.ts`: `executeToolWithTokenConsumption`
  (the uniform check / execute / consume dispatcher);
* `src/tools/nbp-tools.ts`: `executeGetCurrencyHistory` (shared tool
  extractor with date-range pre-validation);
* `src/api-key-handler.ts`: the per-tool executors of the API-key
  protocol path (`executeCurrencyRateTool`, `executeCurrencyHistoryTool`);
* the OAuth path's `getCurrencyRate` handler from `server.ts`;
* the module `src/shared/tokenConsumption.ts` (`checkBalance`,
  `consumeTokensWithRetry`, `formatAccountDeletedError`) is referenced by
  all of the above but its source file is not part of the sources; where a
  claim depends on it, the definition here is modelled from the
  specification and marked as such in its doc comment.

The D1 database is modelled as an explicit `LedgerState` (the three
relations `users`, `transactions`, `mcp_actions` as lists of rows), and
every stateful operation passes the state through explicitly.  `db.batch`
statements execute sequentially inside one transaction, so the embedding
applies them in order.  JavaScript numbers are modelled as `Rat` (the
values that actually flow through this code are small exact integers and
the code compares them only against integer literals, so rationals are an
exact model).  Functions that can throw return `Except String`.

Identifiers produced at run time by `crypto.randomUUID()` and
`new Date().toISOString()` are nondeterministic inputs; the embedding
takes them as explicit parameters.
-/

namespace NbpExchange

/-- A row of the `users` table (interface `DatabaseUser` in
`src/tokenUtils.ts`, plus the `is_deleted` soft-delete flag that the
balance checker of `tokenConsumption.ts` consults). -/
structure UserRow where
  user_id : String
  current_token_balance : Rat
  total_tokens_used : Rat
  is_deleted : Bool
  deriving Repr, DecidableEq

/-- A row of the `transactions` table.  `balance_after` is an `Option`
because the SQL that writes it is a scalar subquery
`(SELECT current_token_balance FROM users WHERE user_id = ?)`, which
yields NULL when no row matches. -/
structure TransactionRow where
  transaction_id : String
  user_id : String
  txn_type : String
  token_amount : Rat
  balance_after : Option Rat
  description : String
  created_at : String
  deriving Repr, DecidableEq

/-- A row of the `mcp_actions` table (the action / idempotency log). -/
structure McpActionRow where
  action_id : String
  user_id : String
  mcp_server_name : String
  tool_name : String
  parameters : String
  tokens_consumed : Rat
  success : Nat
  created_at : String
  deriving Repr, DecidableEq

/-- The shared D1 ledger: the three relations of the token system. -/
structure LedgerState where
  users : List UserRow
  transactions : List TransactionRow
  mcp_actions : List McpActionRow
  deriving Repr, DecidableEq

/-- `SELECT ... FROM users WHERE user_id = ?` followed by `.first()`:
the first row whose `user_id` matches. -/
def findUser (users : List UserRow) (userId : String) : Option UserRow :=
  users.find? (fun u => u.user_id == userId)

/-- The `UPDATE users SET current_token_balance = current_token_balance - ?,
total_tokens_used = total_tokens_used + ? WHERE user_id = ?` statement of
`deductTokens`: every matching row is updated. -/
def updateBalance (users : List UserRow) (userId : String) (amount : Rat) :
    List UserRow :=
  users.map (fun u =>
    if u.user_id == userId then
      { u with
        current_token_balance := u.current_token_balance - amount,
        total_tokens_used := u.total_tokens_used + amount }
    else u)

/-- `meta.changes` of the UPDATE statement: how many rows matched. -/
def updateChanges (users : List UserRow) (userId : String) : Nat :=
  (users.filter (fun u => u.user_id == userId)).length

/-- Result type `BalanceCheckResult` of `checkTokenBalance` in
`src/tokenUtils.ts`. -/
structure BalanceCheckResult where
  sufficient : Bool
  currentBalance : Rat
  required : Rat
  deriving Repr, DecidableEq

/-- Result type `TokenDeductionResult` of `deductTokens` in
`src/tokenUtils.ts`. -/
structure TokenDeductionResult where
  success : Bool
  newBalance : Rat
  transactionId : String
  actionId : String
  deriving Repr, DecidableEq

/-- `checkTokenBalance` from `src/tokenUtils.ts` (lines 93 to 130).  A
read-only SELECT: it issues no write, which the embedding reflects by not
returning a state.  The `Except` layer mirrors the try/catch that rethrows
storage faults; the code path itself never throws: a missing user row
returns `sufficient = false` with balance 0. -/
def checkTokenBalance (st : LedgerState) (userId : String)
    (requiredTokens : Rat) : Except String BalanceCheckResult :=
  match findUser st.users userId with
  | none =>
      .ok { sufficient := false, currentBalance := 0,
            required := requiredTokens }
  | some u =>
      .ok { sufficient := decide (requiredTokens ≤ u.current_token_balance),
            currentBalance := u.current_token_balance,
            required := requiredTokens }

/-- `deductTokens` from `src/tokenUtils.ts` (lines 150 to 283).
`transactionId`, `actionId` and `timestamp` are the values the source
draws from `crypto.randomUUID()` and `new Date().toISOString()`.

The function validates its inputs, then runs one atomic `db.batch` of
three statements (balance UPDATE, `transactions` INSERT whose
`balance_after` subquery reads the already-updated balance, `mcp_actions`
INSERT with `success = 1`), then checks `meta.changes` of the UPDATE and
throws if no row was updated.  Note that this last check runs after the
batch has committed, so its throw does not undo the two INSERTs.  Errors
are rethrown with the prefix `Failed to deduct tokens: ` by the
surrounding catch.  The returned pair is (database state, outcome). -/
def deductTokens (st : LedgerState) (userId : String) (tokenAmount : Rat)
    (serverName toolName parametersJson : String)
    (transactionId actionId timestamp : String) :
    LedgerState × Except String TokenDeductionResult :=
  if tokenAmount ≤ 0 then
    (st, .error "Failed to deduct tokens: Token amount must be positive")
  else if userId = "" ∨ serverName = "" ∨ toolName = "" then
    (st, .error "Failed to deduct tokens: Missing required parameters")
  else
    let users1 := updateBalance st.users userId tokenAmount
    let txnRow : TransactionRow :=
      { transaction_id := transactionId,
        user_id := userId,
        txn_type := "usage",
        token_amount := -tokenAmount,
        balance_after := (findUser users1 userId).map
          (fun u => u.current_token_balance),
        description := serverName ++ ": " ++ toolName,
        created_at := timestamp }
    let actRow : McpActionRow :=
      { action_id := actionId,
        user_id := userId,
        mcp_server_name := serverName,
        tool_name := toolName,
        parameters := parametersJson,
        tokens_consumed := tokenAmount,
        success := 1,
        created_at := timestamp }
    let st1 : LedgerState :=
      { users := users1,
        transactions := st.transactions ++ [txnRow],
        mcp_actions := st.mcp_actions ++ [actRow] }
    if updateChanges st.users userId = 0 then
      (st1, .error
        "Failed to deduct tokens: User not found or balance update failed")
    else
      match findUser users1 userId with
      | none =>
          (st1, .error
            "Failed to deduct tokens: Failed to retrieve updated balance")
      | some u1 =>
          (st1, .ok { success := true,
                      newBalance := u1.current_token_balance,
                      transactionId := transactionId,
                      actionId := actionId })

/-- `formatInsufficientTokensError` from `src/tokenUtils.ts`: the Polish
insufficient-balance message.  Number rendering uses `toString` in place
of JavaScript template interpolation. -/
def formatInsufficientTokensError (toolName : String)
    (currentBalance requiredTokens : Rat) : String :=
  let tokenWord :=
    if currentBalance = 1 then "token"
    else if currentBalance = 0 ∨ 5 ≤ currentBalance then "tokenów"
    else "tokeny"
  let requiredWord :=
    if requiredTokens = 1 then "token"
    else if 5 ≤ requiredTokens then "tokenów"
    else "tokeny"
  "Niewystarczająca liczba tokenów do wykonania " ++ toolName ++
    ".\nAktualny stan: " ++ toString currentBalance ++ " " ++ tokenWord ++
    "\nWymagane: " ++ toString requiredTokens ++ " " ++ requiredWord ++
    "\nKup tokeny: https://panel.wtyczki.ai/"

/-- Modelled from the spec: the result record of `checkBalance` in
`src/shared/tokenConsumption.ts`.  That module is not among the sources;
its callers (`tool-executor.ts`, `nbp-tools.ts`, `api-key-handler.ts`,
`server.ts`) read the fields `sufficient`, `currentBalance` and
`userDeleted` of its result. -/
structure TokenBalanceResult where
  sufficient : Bool
  currentBalance : Rat
  userDeleted : Bool
  deriving Repr, DecidableEq

/-- Modelled from the spec: `checkBalance` of the missing module
`src/shared/tokenConsumption.ts` (spec section 4.1): a fresh read-only
query; a soft-deleted account yields `userDeleted = true` and
`sufficient = false` regardless of the balance value; a missing user row
is treated as insufficient with balance 0 and does not throw. -/
def checkBalance (st : LedgerState) (userId : String)
    (requiredTokens : Rat) : TokenBalanceResult :=
  match findUser st.users userId with
  | none =>
      { sufficient := false, currentBalance := 0, userDeleted := false }
  | some u =>
      if u.is_deleted then
        { sufficient := false, currentBalance := u.current_token_balance,
          userDeleted := true }
      else
        { sufficient := decide (requiredTokens ≤ u.current_token_balance),
          currentBalance := u.current_token_balance,
          userDeleted := false }

/-- Modelled from the spec: the result of `consumeTokensWithRetry`
(spec section 4.2 gives the operation shape
`consumeTokens(...) -> (newBalance, transactionId, actionId)`). -/
structure ConsumeResult where
  newBalance : Rat
  transactionId : String
  actionId : String
  deriving Repr, DecidableEq

set_option linter.unusedVariables false in
/-- Modelled from the spec: `consumeTokensWithRetry` of the missing module
`src/shared/tokenConsumption.ts`.  Its callers pass
`(db, userId, amount, serverName, toolName, actionParams, resultPayload,
success, actionId)` with a pre-generated `actionId`.  Per spec section
4.2 the operation validates its inputs (positive amount, non-empty
identifiers), detects an existing action-log row by its unique `actionId`
and short-circuits as already applied (idempotency option (a)), and
otherwise applies the balance decrement, the `transactions` insert (whose
`balance_after` is the post-decrement balance) and the `mcp_actions`
insert as one atomic unit that succeeds or fails together.  The bounded
retry loop only re-runs the unit on transient storage faults, which a
deterministic state model does not exhibit, so the model applies the unit
once.  No balance-sufficiency check is performed (spec: "it does not
re-check").  The `resultPayload` parameter is accepted for signature
fidelity with the callers; the `mcp_actions` relation as documented in
`tokenUtils.ts` has no result column, so the model does not store it. -/
def consumeTokensWithRetry (st : LedgerState) (userId : String)
    (amount : Rat) (serverName toolName parametersJson resultPayload :
    String) (success : Bool) (actionId : String)
    (transactionId timestamp : String) :
    LedgerState × Except String ConsumeResult :=
  if amount ≤ 0 then
    (st, .error "Token amount must be positive")
  else if userId = "" ∨ serverName = "" ∨ toolName = "" then
    (st, .error "Missing required parameters")
  else if st.mcp_actions.any (fun a => a.action_id == actionId) then
    (st, .ok { newBalance :=
                 ((findUser st.users userId).map
                   (fun u => u.current_token_balance)).getD 0,
               transactionId := transactionId,
               actionId := actionId })
  else
    match findUser st.users userId with
    | none => (st, .error "User not found")
    | some u =>
        let newBal := u.current_token_balance - amount
        let st1 : LedgerState :=
          { users := updateBalance st.users userId amount,
            transactions := st.transactions ++
              [{ transaction_id := transactionId,
                 user_id := userId,
                 txn_type := "usage",
                 token_amount := -amount,
                 balance_after := some newBal,
                 description := serverName ++ ": " ++ toolName,
                 created_at := timestamp }],
            mcp_actions := st.mcp_actions ++
              [{ action_id := actionId,
                 user_id := userId,
                 mcp_server_name := serverName,
                 tool_name := toolName,
                 parameters := parametersJson,
                 tokens_consumed := amount,
                 success := if success then 1 else 0,
                 created_at := timestamp }] }
        (st1, .ok { newBalance := newBal,
                    transactionId := transactionId,
                    actionId := actionId })

/-- Modelled from the spec: `formatAccountDeletedError` is imported from
the shared token utilities but no version among the sources defines it.
Spec section 7 requires an account-state message distinct from the
insufficient-balance one: "account deleted (terminal: contact support)". -/
def formatAccountDeletedError (toolName : String) : String :=
  "Konto zostało usunięte. Narzędzie " ++ toolName ++
    " jest niedostępne. Skontaktuj się z pomocą techniczną: " ++
    "https://panel.wtyczki.ai/"

/-- Ghost instrumentation: which workflow steps a dispatcher run actually
performed, in order.  `balanceChecked` marks a `checkBalance` call,
`executed` the business-logic call, `consumeAttempted` a
`consumeTokensWithRetry` call. -/
inductive WorkflowStep where
  | balanceChecked
  | executed
  | consumeAttempted
  deriving Repr, DecidableEq

/-- An MCP tool response as the embedded executors observe it: the text of
the single content item, the error flag, and whether the response carries
a `structuredContent` mirror. -/
structure ToolResponse where
  contentText : String
  isError : Bool
  hasStructuredContent : Bool
  deriving Repr, DecidableEq

/-- Outcome of the business-logic callback (the external NBP fetch plus
the output-shaping pipeline, an external collaborator): either the final
shaped result string, or a thrown error message. -/
inductive ExecOutcome where
  | ok (redacted : String)
  | fail (msg : String)
  deriving Repr, DecidableEq

instance {ε α : Type} [DecidableEq ε] [DecidableEq α] :
    DecidableEq (Except ε α) := fun x y =>
  match x, y with
  | .error a, .error b =>
      if h : a = b then isTrue (by rw [h]) else isFalse (by simp [h])
  | .error _, .ok _ => isFalse (by simp)
  | .ok _, .error _ => isFalse (by simp)
  | .ok a, .ok b =>
      if h : a = b then isTrue (by rw [h]) else isFalse (by simp [h])

/-- One dispatcher run: the resulting database state, the outcome (an
executor without its own try/catch propagates exceptions as `.error`),
and the ghost trace of performed steps. -/
structure ToolRun where
  state : LedgerState
  result : Except String ToolResponse
  steps : List WorkflowStep
  deriving Repr, DecidableEq

/-- `executeToolWithTokenConsumption` from `src/shared/tool-executor.ts`:
the uniform 7-step workflow.  Step 1 (action-id generation) is the
`actionId` parameter; step 4.5 (sanitize and redact, an external library)
is folded into the `execOutcome` parameter, whose `.ok` value is the
final redacted string.  The function has a surrounding try/catch, so its
result is always `.ok`; a failure inside returns an error response with
the text `Error executing <tool>: <message>`.  On success the response
carries the redacted text and a `structuredContent` mirror. -/
def executeToolWithTokenConsumption (st : LedgerState)
    (toolName : String) (toolCost : Rat) (userId parametersJson : String)
    (execOutcome : ExecOutcome)
    (actionId transactionId timestamp : String) : ToolRun :=
  let bc := checkBalance st userId toolCost
  if bc.userDeleted then
    { state := st,
      result := .ok ⟨formatAccountDeletedError toolName, true, false⟩,
      steps := [.balanceChecked] }
  else if !bc.sufficient then
    { state := st,
      result := .ok { contentText := formatInsufficientTokensError toolName
                        bc.currentBalance toolCost,
                      isError := true, hasStructuredContent := false },
      steps := [.balanceChecked] }
  else
    match execOutcome with
    | .fail msg =>
        { state := st,
          result := .ok { contentText :=
                            "Error executing " ++ toolName ++ ": " ++ msg,
                          isError := true, hasStructuredContent := false },
          steps := [.balanceChecked, .executed] }
    | .ok redacted =>
        match consumeTokensWithRetry st userId toolCost "nbp-exchange-mcp"
          toolName parametersJson redacted true actionId transactionId
          timestamp with
        | (st1, .error e) =>
            { state := st1,
              result := .ok { contentText :=
                                "Error executing " ++ toolName ++ ": " ++ e,
                              isError := true,
                              hasStructuredContent := false },
              steps := [.balanceChecked, .executed, .consumeAttempted] }
        | (st1, .ok _) =>
            { state := st1,
              result := .ok ⟨redacted, false, true⟩,
              steps := [.balanceChecked, .executed, .consumeAttempted] }

/-- A calendar date as carried by the validated `YYYY-MM-DD` tool inputs
(the Zod schemas enforce the format upstream). -/
structure CivilDate where
  year : Nat
  month : Nat
  day : Nat
  deriving Repr, DecidableEq

/-- Days since the Unix epoch of a civil date (proleptic Gregorian),
the standard days-from-civil computation.  For a date-only string,
JavaScript `new Date("YYYY-MM-DD").getTime()` is exactly
`daysFromCivil d * 86400000`, so the source's
`Math.ceil((end.getTime() - start.getTime()) / 86400000)` equals
`daysFromCivil endDate - daysFromCivil startDate` (the quotient is an
exact integer, so the ceiling is the identity). -/
def daysFromCivil (d : CivilDate) : Int :=
  let y : Nat := if d.month ≤ 2 then d.year - 1 else d.year
  let era : Nat := y / 400
  let yoe : Nat := y - era * 400
  let mp : Nat := (d.month + 9) % 12
  let doy : Nat := (153 * mp + 2) / 5 + d.day - 1
  let doe : Nat := yoe * 365 + yoe / 4 - yoe / 100 + doy
  (era * 146097 + doe : Int) - 719468

/-- The `daysDiff` computed at the top of `executeGetCurrencyHistory` in
`src/tools/nbp-tools.ts` (and in the OAuth handler of `server.ts`). -/
def daysDiff (startDate endDate : CivilDate) : Int :=
  daysFromCivil endDate - daysFromCivil startDate

/-- `executeGetCurrencyHistory` from `src/tools/nbp-tools.ts` (the shared
tool extractor used by the OAuth path's `server.ts` and delegated to by
one revision of `api-key-handler.ts`).  Date-range pre-validation runs
before anything else: a span of more than 93 days or a negative span
returns a validation error with no balance check and no consumption.
Then the 7-step workflow runs inside try/catch (so the outcome is always
`.ok`): balance check, deleted-account branch, insufficient branch,
fetch plus shaping (the `execOutcome` parameter), consumption with the
pre-generated `actionId`, structured response. -/
def executeGetCurrencyHistory (st : LedgerState)
    (currencyCode : String) (startDate endDate : CivilDate)
    (userId parametersJson : String) (execOutcome : ExecOutcome)
    (actionId transactionId timestamp : String) : ToolRun :=
  if 93 < daysDiff startDate endDate then
    { state := st,
      result := .ok
        ⟨"Error: Date range exceeds maximum of 93 days. Please reduce the range.",
         true, false⟩,
      steps := [] }
  else if daysDiff startDate endDate < 0 then
    { state := st,
      result := .ok ⟨"Error: End date must be after start date.", true, false⟩,
      steps := [] }
  else
    let _ := currencyCode
    let bc := checkBalance st userId 1
    if bc.userDeleted then
      { state := st,
        result := .ok
          ⟨formatAccountDeletedError "getCurrencyHistory", true, false⟩,
        steps := [.balanceChecked] }
    else if !bc.sufficient then
      { state := st,
        result := .ok
          ⟨formatInsufficientTokensError "getCurrencyHistory"
             bc.currentBalance 1, true, false⟩,
        steps := [.balanceChecked] }
    else
      match execOutcome with
      | .fail msg =>
          { state := st,
            result := .ok ⟨"Error: " ++ msg, true, false⟩,
            steps := [.balanceChecked, .executed] }
      | .ok redacted =>
          match consumeTokensWithRetry st userId 1 "nbp-exchange-mcp"
            "getCurrencyHistory" parametersJson redacted true actionId
            transactionId timestamp with
          | (st1, .error e) =>
              { state := st1,
                result := .ok ⟨"Error: " ++ e, true, false⟩,
                steps := [.balanceChecked, .executed, .consumeAttempted] }
          | (st1, .ok _) =>
              { state := st1,
                result := .ok ⟨redacted, false, true⟩,
                steps := [.balanceChecked, .executed, .consumeAttempted] }

/-- `executeCurrencyHistoryTool` from `src/api-key-handler.ts` (the
revision at lines 1834 to 1908): the API-key path's getCurrencyHistory
executor.  It performs no date-range validation of its own: it checks the
balance first, then calls `fetchCurrencyHistory` directly, then consumes.
It has no try/catch, so a fetch failure propagates to `handleToolsCall`
(which maps it to a JSON-RPC internal error); the embedding returns it as
`.error`.  Its success response carries no `structuredContent`. -/
def executeCurrencyHistoryToolApiKey (st : LedgerState)
    (currencyCode : String) (startDate endDate : CivilDate)
    (userId parametersJson : String) (execOutcome : ExecOutcome)
    (actionId transactionId timestamp : String) : ToolRun :=
  let _ := (currencyCode, startDate, endDate)
  let bc := checkBalance st userId 1
  if bc.userDeleted then
    { state := st,
      result := .ok
        ⟨formatAccountDeletedError "getCurrencyHistory", true, false⟩,
      steps := [.balanceChecked] }
  else if !bc.sufficient then
    { state := st,
      result := .ok
        ⟨formatInsufficientTokensError "getCurrencyHistory"
           bc.currentBalance 1, true, false⟩,
      steps := [.balanceChecked] }
  else
    match execOutcome with
    | .fail msg =>
        { state := st, result := .error msg,
          steps := [.balanceChecked, .executed] }
    | .ok redacted =>
        match consumeTokensWithRetry st userId 1 "nbp-exchange-mcp"
          "getCurrencyHistory" parametersJson redacted true actionId
          transactionId timestamp with
        | (st1, .error e) =>
            { state := st1, result := .error e,
              steps := [.balanceChecked, .executed, .consumeAttempted] }
        | (st1, .ok _) =>
            { state := st1,
              result := .ok ⟨redacted, false, false⟩,
              steps := [.balanceChecked, .executed, .consumeAttempted] }

/-- `executeCurrencyRateTool` from `src/api-key-handler.ts` (the revision
at lines 1676 to 1750): the API-key path's getCurrencyRate executor.
Balance check, deleted and insufficient branches, fetch plus shaping,
consumption, then a success response holding only the content text
(no `structuredContent`, lines 1747 to 1749).  No try/catch: failures
propagate. -/
def executeCurrencyRateToolApiKey (st : LedgerState)
    (userId parametersJson : String) (execOutcome : ExecOutcome)
    (actionId transactionId timestamp : String) : ToolRun :=
  let bc := checkBalance st userId 1
  if bc.userDeleted then
    { state := st,
      result := .ok
        ⟨formatAccountDeletedError "getCurrencyRate", true, false⟩,
      steps := [.balanceChecked] }
  else if !bc.sufficient then
    { state := st,
      result := .ok
        ⟨formatInsufficientTokensError "getCurrencyRate"
           bc.currentBalance 1, true, false⟩,
      steps := [.balanceChecked] }
  else
    match execOutcome with
    | .fail msg =>
        { state := st, result := .error msg,
          steps := [.balanceChecked, .executed] }
    | .ok redacted =>
        match consumeTokensWithRetry st userId 1 "nbp-exchange-mcp"
          "getCurrencyRate" parametersJson redacted true actionId
          transactionId timestamp with
        | (st1, .error e) =>
            { state := st1, result := .error e,
              steps := [.balanceChecked, .executed, .consumeAttempted] }
        | (st1, .ok _) =>
            { state := st1,
              result := .ok ⟨redacted, false, false⟩,
              steps := [.balanceChecked, .executed, .consumeAttempted] }

/-- The OAuth path's `getCurrencyRate` handler (registered in `server.ts`
revision with `registerTool`, same shape in the related revision's lines
230 to 330): inside try/catch, balance check, deleted and insufficient
branches, fetch plus shaping, consumption, and a success response that
parses the redacted text back and returns it as `structuredContent`
alongside the content text (the cited lines 311 to 319). -/
def getCurrencyRateOAuthHandler (st : LedgerState)
    (userId parametersJson : String) (execOutcome : ExecOutcome)
    (actionId transactionId timestamp : String) : ToolRun :=
  let bc := checkBalance st userId 1
  if bc.userDeleted then
    { state := st,
      result := .ok
        ⟨formatAccountDeletedError "getCurrencyRate", true, false⟩,
      steps := [.balanceChecked] }
  else if !bc.sufficient then
    { state := st,
      result := .ok
        ⟨formatInsufficientTokensError "getCurrencyRate"
           bc.currentBalance 1, true, false⟩,
      steps := [.balanceChecked] }
  else
    match execOutcome with
    | .fail msg =>
        { state := st,
          result := .ok ⟨"Error: " ++ msg, true, false⟩,
          steps := [.balanceChecked, .executed] }
    | .ok redacted =>
        match consumeTokensWithRetry st userId 1 "nbp-exchange-mcp"
          "getCurrencyRate" parametersJson redacted true actionId
          transactionId timestamp with
        | (st1, .error e) =>
            { state := st1,
              result := .ok ⟨"Error: " ++ e, true, false⟩,
              steps := [.balanceChecked, .executed, .consumeAttempted] }
        | (st1, .ok _) =>
            { state := st1,
              result := .ok ⟨redacted, false, true⟩,
              steps := [.balanceChecked, .executed, .consumeAttempted] }

/-! ## Helper lemmas -/

/-- Updating the balance of `uid` rewrites exactly the row that
`findUser` returns. -/
theorem findUser_updateBalance (users : List UserRow) (uid : String)
    (amt : Rat) :
    findUser (updateBalance users uid amt) uid =
      (findUser users uid).map (fun u =>
        { u with
          current_token_balance := u.current_token_balance - amt,
          total_tokens_used := u.total_tokens_used + amt }) := by
  induction users with
  | nil => rfl
  | cons u rest ih =>
      by_cases h : u.user_id == uid
      · simp [findUser, updateBalance, List.find?, h]
      · simpa [findUser, updateBalance, List.find?, h] using ih

/-- The UPDATE matches no row exactly when the user row is missing. -/
theorem updateChanges_eq_zero_iff (users : List UserRow) (uid : String) :
    updateChanges users uid = 0 ↔ findUser users uid = none := by
  simp [updateChanges, findUser, List.length_eq_zero, List.filter_eq_nil_iff,
    List.find?_eq_none]

/-- The account-deleted message never coincides with the
insufficient-balance message (they differ already in their first
character), for any tool name, balance and cost. -/
theorem formatAccountDeletedError_ne_insufficient (t : String)
    (b c : Rat) :
    formatAccountDeletedError t ≠ formatInsufficientTokensError t b c := by
  intro h
  have h2 := congrArg (fun s => s.data.head?) h
  simp only [formatAccountDeletedError, formatInsufficientTokensError,
    String.data_append] at h2
  simp at h2

/-! ## Concrete fixtures for witnesses and counterexamples -/

/-- A live user `u1` with balance 5 and no usage. -/
def sampleUser : UserRow :=
  { user_id := "u1", current_token_balance := 5, total_tokens_used := 0,
    is_deleted := false }

/-- A ledger holding only `sampleUser`, with empty logs. -/
def sampleState : LedgerState :=
  { users := [sampleUser], transactions := [], mcp_actions := [] }

/-- A soft-deleted user with a large positive balance. -/
def deletedUser : UserRow :=
  { user_id := "u2", current_token_balance := 100, total_tokens_used := 3,
    is_deleted := true }

/-- A ledger holding only `deletedUser`. -/
def deletedState : LedgerState :=
  { users := [deletedUser], transactions := [], mcp_actions := [] }

/-- An empty ledger: no users at all. -/
def emptyState : LedgerState :=
  { users := [], transactions := [], mcp_actions := [] }

/-! ## Claim theorems -/

/-- C7: the Token Consumer performs no balance-sufficiency check of its
own: for every user row with balance `b` and every positive amount `a`
(with non-empty identifiers), `deductTokens` succeeds and leaves the
balance at `b - a`, which may be negative. -/
theorem deductTokens_no_sufficiency_check
    (st : LedgerState) (userId : String) (u : UserRow) (amount : Rat)
    (serverName toolName parametersJson : String)
    (transactionId actionId timestamp : String)
    (hu : findUser st.users userId = some u) (hamt : 0 < amount)
    (hid : userId ≠ "") (hsn : serverName ≠ "") (htn : toolName ≠ "") :
    (deductTokens st userId amount serverName toolName parametersJson
        transactionId actionId timestamp).2 =
      .ok { success := true,
            newBalance := u.current_token_balance - amount,
            transactionId := transactionId, actionId := actionId } ∧
    findUser (deductTokens st userId amount serverName toolName
        parametersJson transactionId actionId timestamp).1.users userId =
      some { u with
             current_token_balance := u.current_token_balance - amount,
             total_tokens_used := u.total_tokens_used + amount } := by
  have hle : ¬ amount ≤ 0 := not_le.mpr hamt
  have hch : ¬ updateChanges st.users userId = 0 := by
    rw [updateChanges_eq_zero_iff, hu]
    simp
  have hf := findUser_updateBalance st.users userId amount
  rw [hu] at hf
  simp [deductTokens, hle, hid, hsn, htn, hch, hf]

/-- C7 witness: balance 5, amount 7: the deduction succeeds and drives
the balance to -2. -/
theorem deductTokens_no_sufficiency_check_witness :
    (deductTokens sampleState "u1" 7 "nbp-exchange-mcp" "getCurrencyRate"
        "{}" "t1" "a1" "ts").2 =
      .ok { success := true, newBalance := -2,
            transactionId := "t1", actionId := "a1" } ∧
    findUser (deductTokens sampleState "u1" 7 "nbp-exchange-mcp"
        "getCurrencyRate" "{}" "t1" "a1" "ts").1.users "u1" =
      some { sampleUser with
             current_token_balance := -2,
             total_tokens_used := 7 } := by
  have h := deductTokens_no_sufficiency_check sampleState "u1" sampleUser 7
    "nbp-exchange-mcp" "getCurrencyRate" "{}" "t1" "a1" "ts"
    (by simp [sampleState, sampleUser, findUser, List.find?])
    (by norm_num) (by simp) (by simp) (by simp)
  refine ⟨?_, ?_⟩
  · rw [h.1]
    norm_num [sampleUser]
  · rw [h.2]
    norm_num [sampleUser]

/-- C9: a balance check for a user with no `users` row returns
`sufficient = false` with `currentBalance = 0` and does not throw; the
operation is a pure read (the embedding of `checkTokenBalance` takes the
ledger only as input and returns no state, mirroring that the source
issues a single SELECT and no write). -/
theorem checkTokenBalance_missing_user
    (st : LedgerState) (userId : String) (requiredTokens : Rat)
    (hu : findUser st.users userId = none) :
    checkTokenBalance st userId requiredTokens =
      .ok { sufficient := false, currentBalance := 0,
            required := requiredTokens } := by
  simp [checkTokenBalance, hu]

/-- C9 witness: checking user `ghost` against an empty users table. -/
theorem checkTokenBalance_missing_user_witness :
    checkTokenBalance emptyState "ghost" 1 =
      .ok { sufficient := false, currentBalance := 0, required := 1 } :=
  checkTokenBalance_missing_user emptyState "ghost" 1 (by
    simp [emptyState, findUser])

/-- C3: after a successful deduction, the transaction inserted by the
batch is the most recent transaction and its stored `balance_after`
equals the user row's balance as it exists after this decrement
(`b - a`); it is not the value `b - 2a` that a second subtraction from
the already-decremented row would produce. -/
theorem deductTokens_balance_after_correct
    (st : LedgerState) (userId : String) (u : UserRow) (amount : Rat)
    (serverName toolName parametersJson : String)
    (transactionId actionId timestamp : String)
    (hu : findUser st.users userId = some u) (hamt : 0 < amount)
    (hid : userId ≠ "") (hsn : serverName ≠ "") (htn : toolName ≠ "") :
    (deductTokens st userId amount serverName toolName parametersJson
        transactionId actionId timestamp).1.transactions =
      st.transactions ++
        [{ transaction_id := transactionId, user_id := userId,
           txn_type := "usage", token_amount := -amount,
           balance_after := some (u.current_token_balance - amount),
           description := serverName ++ ": " ++ toolName,
           created_at := timestamp }] ∧
    ((deductTokens st userId amount serverName toolName parametersJson
        transactionId actionId timestamp).1.transactions.getLast?.map
      (fun t => t.balance_after)) =
      some ((findUser (deductTokens st userId amount serverName toolName
          parametersJson transactionId actionId
          timestamp).1.users userId).map
        (fun w => w.current_token_balance)) ∧
    u.current_token_balance - amount ≠
      u.current_token_balance - amount - amount := by
  have hle : ¬ amount ≤ 0 := not_le.mpr hamt
  have hch : ¬ updateChanges st.users userId = 0 := by
    rw [updateChanges_eq_zero_iff, hu]
    simp
  have hf := findUser_updateBalance st.users userId amount
  rw [hu] at hf
  refine ⟨?_, ?_, ?_⟩
  · simp [deductTokens, hle, hid, hsn, htn, hch, hf]
  · simp [deductTokens, hle, hid, hsn, htn, hch, hf, List.getLast?_concat]
  · intro h
    have : amount = 0 := by linarith
    exact absurd this (ne_of_gt hamt)

/-- C3 witness: example scenario of spec section 8 with balance 5 and
cost 1: the recorded transaction carries `balance_after = 4`, the same
value as the user row's balance after the call. -/
theorem deductTokens_balance_after_correct_witness :
    (deductTokens sampleState "u1" 1 "nbp-exchange-mcp" "getCurrencyRate"
        "{}" "t1" "a1" "ts").1.transactions =
      [{ transaction_id := "t1", user_id := "u1",
         txn_type := "usage", token_amount := -1,
         balance_after := some 4,
         description := "nbp-exchange-mcp: getCurrencyRate",
         created_at := "ts" }] ∧
    (4 : Rat) = 5 - 1 := by
  have h := deductTokens_balance_after_correct sampleState "u1" sampleUser
    1 "nbp-exchange-mcp" "getCurrencyRate" "{}" "t1" "a1" "ts"
    (by simp [sampleState, sampleUser, findUser, List.find?])
    (by norm_num) (by simp) (by simp) (by simp)
  refine ⟨?_, by norm_num⟩
  rw [h.1]
  norm_num [sampleState, sampleUser]
  rfl

/-- C1: with a pre-generated `actionId` that is not yet in the action
log, a first `consumeTokensWithRetry` call charges exactly once (one
balance decrement, one appended transaction record, one appended
action-log row), and a second call with the same `actionId` and the same
parameters short-circuits: it returns success, leaves the ledger state
completely unchanged, and so does not charge again. -/
theorem consumeTokensWithRetry_idempotent
    (st : LedgerState) (userId : String) (u : UserRow) (amount : Rat)
    (serverName toolName parametersJson resultPayload : String)
    (success : Bool) (actionId transactionId timestamp : String)
    (transactionId2 timestamp2 : String)
    (hu : findUser st.users userId = some u) (hamt : 0 < amount)
    (hid : userId ≠ "") (hsn : serverName ≠ "") (htn : toolName ≠ "")
    (hfresh : ∀ a ∈ st.mcp_actions, a.action_id ≠ actionId) :
    (consumeTokensWithRetry st userId amount serverName toolName
        parametersJson resultPayload success actionId transactionId
        timestamp).2 =
      .ok { newBalance := u.current_token_balance - amount,
            transactionId := transactionId, actionId := actionId } ∧
    (consumeTokensWithRetry st userId amount serverName toolName
        parametersJson resultPayload success actionId transactionId
        timestamp).1 =
      { users := updateBalance st.users userId amount,
        transactions := st.transactions ++
          [{ transaction_id := transactionId, user_id := userId,
             txn_type := "usage", token_amount := -amount,
             balance_after := some (u.current_token_balance - amount),
             description := serverName ++ ": " ++ toolName,
             created_at := timestamp }],
        mcp_actions := st.mcp_actions ++
          [{ action_id := actionId, user_id := userId,
             mcp_server_name := serverName, tool_name := toolName,
             parameters := parametersJson, tokens_consumed := amount,
             success := if success then 1 else 0,
             created_at := timestamp }] } ∧
    consumeTokensWithRetry
        (consumeTokensWithRetry st userId amount serverName toolName
          parametersJson resultPayload success actionId transactionId
          timestamp).1
        userId amount serverName toolName parametersJson resultPayload
        success actionId transactionId2 timestamp2 =
      ((consumeTokensWithRetry st userId amount serverName toolName
          parametersJson resultPayload success actionId transactionId
          timestamp).1,
       .ok { newBalance := u.current_token_balance - amount,
             transactionId := transactionId2, actionId := actionId }) := by
  have hle : ¬ amount ≤ 0 := not_le.mpr hamt
  have hany : st.mcp_actions.any (fun a => a.action_id == actionId) =
      false := by
    rw [List.any_eq_false]
    intro a ha
    simpa using hfresh a ha
  have hf := findUser_updateBalance st.users userId amount
  rw [hu] at hf
  refine ⟨?_, ?_, ?_⟩
  · simp [consumeTokensWithRetry, hle, hid, hsn, htn, hany, hu]
  · simp [consumeTokensWithRetry, hle, hid, hsn, htn, hany, hu]
  · have hstep :
        (consumeTokensWithRetry st userId amount serverName toolName
          parametersJson resultPayload success actionId transactionId
          timestamp).1.mcp_actions.any
            (fun a => a.action_id == actionId) = true := by
      simp [consumeTokensWithRetry, hle, hid, hsn, htn, hany, hu]
    have hfu :
        findUser (consumeTokensWithRetry st userId amount serverName
          toolName parametersJson resultPayload success actionId
          transactionId timestamp).1.users userId =
          some { u with
                 current_token_balance := u.current_token_balance - amount,
                 total_tokens_used := u.total_tokens_used + amount } := by
      simp [consumeTokensWithRetry, hle, hid, hsn, htn, hany, hu, hf]
    rw [consumeTokensWithRetry, if_neg hle,
      if_neg (by simp [hid, hsn, htn]), if_pos hstep, hfu]
    simp

/-- C1 witness: spec example scenario 4 on the concrete sample ledger:
the first call with actionId `a1` charges once (balance 5 becomes 4), the
retried call with the same `a1` returns success and changes nothing. -/
theorem consumeTokensWithRetry_idempotent_witness :
    (consumeTokensWithRetry sampleState "u1" 1 "nbp-exchange-mcp"
        "getCurrencyRate" "{}" "res" true "a1" "t1" "ts").2 =
      .ok { newBalance := 4, transactionId := "t1", actionId := "a1" } ∧
    consumeTokensWithRetry
        (consumeTokensWithRetry sampleState "u1" 1 "nbp-exchange-mcp"
          "getCurrencyRate" "{}" "res" true "a1" "t1" "ts").1
        "u1" 1 "nbp-exchange-mcp" "getCurrencyRate" "{}" "res" true "a1"
        "t2" "ts2" =
      ((consumeTokensWithRetry sampleState "u1" 1 "nbp-exchange-mcp"
          "getCurrencyRate" "{}" "res" true "a1" "t1" "ts").1,
       .ok { newBalance := 4, transactionId := "t2", actionId := "a1" }) := by
  have h := consumeTokensWithRetry_idempotent sampleState "u1" sampleUser
    1 "nbp-exchange-mcp" "getCurrencyRate" "{}" "res" true "a1" "t1" "ts"
    "t2" "ts2"
    (by simp [sampleState, sampleUser, findUser, List.find?])
    (by norm_num) (by simp) (by simp) (by simp)
    (by simp [sampleState])
  refine ⟨?_, ?_⟩
  · rw [h.1]
    norm_num [sampleUser]
  · rw [h.2.2]
    norm_num [sampleUser]

/-- C2 counterexample: the claim "if the operation fails, the ledger
state is unchanged" is false as stated.  Invoked for a user with no
`users` row, the batch commits (the UPDATE matches zero rows, the two
INSERTs still execute, the `balance_after` subquery yielding NULL), and
only then does the post-commit `meta.changes` check throw: the operation
fails, yet a transaction row and an action-log row are now observable
with no balance decrement. -/
theorem deductTokens_failure_mutates_state_counterexample :
    (deductTokens emptyState "u1" 1 "nbp-exchange-mcp" "getCurrencyRate"
        "{}" "t1" "a1" "ts").2 =
      .error
        "Failed to deduct tokens: User not found or balance update failed" ∧
    (deductTokens emptyState "u1" 1 "nbp-exchange-mcp" "getCurrencyRate"
        "{}" "t1" "a1" "ts").1.transactions =
      [{ transaction_id := "t1", user_id := "u1", txn_type := "usage",
         token_amount := -1, balance_after := none,
         description := "nbp-exchange-mcp: getCurrencyRate",
         created_at := "ts" }] ∧
    (deductTokens emptyState "u1" 1 "nbp-exchange-mcp" "getCurrencyRate"
        "{}" "t1" "a1" "ts").1.mcp_actions ≠ [] := by
  refine ⟨?_, ?_, ?_⟩ <;>
    simp [deductTokens, emptyState, updateChanges, updateBalance, findUser,
      List.find?] <;> norm_num

/-- C2 (amended): for every invocation on a user whose `users` row exists
(which is the case for every invocation the dispatcher issues, since it
only consumes after a successful balance check), the operation is
all-or-nothing: either it fails with the ledger state unchanged
(input-validation failures throw before the batch), or it succeeds and
the balance decrement, the transactions insert and the mcp_actions insert
are all applied by the one atomic batch. -/
theorem deductTokens_atomic_for_existing_user
    (st : LedgerState) (userId : String) (u : UserRow) (amount : Rat)
    (serverName toolName parametersJson : String)
    (transactionId actionId timestamp : String)
    (hu : findUser st.users userId = some u) :
    (∃ msg, deductTokens st userId amount serverName toolName
        parametersJson transactionId actionId timestamp =
          (st, .error msg)) ∨
    deductTokens st userId amount serverName toolName parametersJson
        transactionId actionId timestamp =
      ({ users := updateBalance st.users userId amount,
         transactions := st.transactions ++
           [{ transaction_id := transactionId, user_id := userId,
              txn_type := "usage", token_amount := -amount,
              balance_after := some (u.current_token_balance - amount),
              description := serverName ++ ": " ++ toolName,
              created_at := timestamp }],
         mcp_actions := st.mcp_actions ++
           [{ action_id := actionId, user_id := userId,
              mcp_server_name := serverName, tool_name := toolName,
              parameters := parametersJson, tokens_consumed := amount,
              success := 1, created_at := timestamp }] },
       .ok { success := true,
             newBalance := u.current_token_balance - amount,
             transactionId := transactionId, actionId := actionId }) := by
  by_cases h1 : amount ≤ 0
  · exact .inl
      ⟨"Failed to deduct tokens: Token amount must be positive",
       by simp [deductTokens, h1]⟩
  by_cases h2 : userId = "" ∨ serverName = "" ∨ toolName = ""
  · refine .inl
      ⟨"Failed to deduct tokens: Missing required parameters", ?_⟩
    simp only [deductTokens, if_neg h1, if_pos h2]
  · push_neg at h2
    right
    have hch : ¬ updateChanges st.users userId = 0 := by
      rw [updateChanges_eq_zero_iff, hu]
      simp
    have hf := findUser_updateBalance st.users userId amount
    rw [hu] at hf
    simp [deductTokens, h1, h2.1, h2.2.1, h2.2.2, hch, hf]

/-- C2 witness: the amended all-or-nothing property instantiated on the
sample ledger, where the successful branch holds with all three effects
applied together. -/
theorem deductTokens_atomic_for_existing_user_witness :
    (∃ msg, deductTokens sampleState "u1" 1 "nbp-exchange-mcp"
        "getCurrencyRate" "{}" "t1" "a1" "ts" =
          (sampleState, .error msg)) ∨
    deductTokens sampleState "u1" 1 "nbp-exchange-mcp" "getCurrencyRate"
        "{}" "t1" "a1" "ts" =
      ({ users := updateBalance sampleState.users "u1" 1,
         transactions := sampleState.transactions ++
           [{ transaction_id := "t1", user_id := "u1",
              txn_type := "usage", token_amount := -1,
              balance_after :=
                some (sampleUser.current_token_balance - 1),
              description := "nbp-exchange-mcp" ++ ": " ++
                "getCurrencyRate",
              created_at := "ts" }],
         mcp_actions := sampleState.mcp_actions ++
           [{ action_id := "a1", user_id := "u1",
              mcp_server_name := "nbp-exchange-mcp",
              tool_name := "getCurrencyRate", parameters := "{}",
              tokens_consumed := 1, success := 1,
              created_at := "ts" }] },
       .ok { success := true,
             newBalance := sampleUser.current_token_balance - 1,
             transactionId := "t1", actionId := "a1" }) :=
  deductTokens_atomic_for_existing_user sampleState "u1" sampleUser 1
    "nbp-exchange-mcp" "getCurrencyRate" "{}" "t1" "a1" "ts"
    (by simp [sampleState, sampleUser, findUser, List.find?])

/-- C8 counterexample: an amount of one half is positive but not an
integer; the claim says such a call throws a fatal validation error, yet
`deductTokens` accepts it (the source only checks `tokenAmount <= 0`) and
deducts it, leaving balance nine halves. -/
theorem deductTokens_accepts_noninteger_amount :
    (0 : Rat) < 1 / 2 ∧
    (∀ n : ℤ, ((n : Rat) ≠ 1 / 2)) ∧
    (deductTokens sampleState "u1" (1 / 2) "nbp-exchange-mcp"
        "getCurrencyRate" "{}" "t1" "a1" "ts").2 =
      .ok { success := true, newBalance := 9 / 2,
            transactionId := "t1", actionId := "a1" } := by
  refine ⟨by norm_num, ?_, ?_⟩
  · intro n hn
    have h2 : (2 : Rat) * (n : Rat) = 1 := by
      rw [hn]
      norm_num
    have h3 : (2 * n : ℤ) = 1 := by exact_mod_cast h2
    omega
  · simp [deductTokens, sampleState, sampleUser, updateBalance,
      updateChanges, findUser, List.find?]
    norm_num

/-- C8 (amended): the fatal validation error is raised exactly when the
amount is not positive or one of the user / server / tool identifiers is
empty, and it is raised with no database write (the state is returned
unchanged); a positive non-integer amount is not rejected. -/
theorem deductTokens_validation_exact
    (st : LedgerState) (userId : String) (amount : Rat)
    (serverName toolName parametersJson : String)
    (transactionId actionId timestamp : String) :
    (amount ≤ 0 →
      deductTokens st userId amount serverName toolName parametersJson
          transactionId actionId timestamp =
        (st, .error
          "Failed to deduct tokens: Token amount must be positive")) ∧
    (¬ amount ≤ 0 → (userId = "" ∨ serverName = "" ∨ toolName = "") →
      deductTokens st userId amount serverName toolName parametersJson
          transactionId actionId timestamp =
        (st, .error
          "Failed to deduct tokens: Missing required parameters")) ∧
    (¬ amount ≤ 0 → userId ≠ "" → serverName ≠ "" → toolName ≠ "" →
      (deductTokens st userId amount serverName toolName parametersJson
          transactionId actionId timestamp).2 ≠
        .error "Failed to deduct tokens: Token amount must be positive" ∧
      (deductTokens st userId amount serverName toolName parametersJson
          transactionId actionId timestamp).2 ≠
        .error "Failed to deduct tokens: Missing required parameters") := by
  refine ⟨fun h1 => by simp [deductTokens, h1],
          fun h1 h2 => by simp only [deductTokens, if_neg h1, if_pos h2],
          fun h1 hid hsn htn => ?_⟩
  by_cases hch : updateChanges st.users userId = 0
  · constructor <;>
      simp [deductTokens, h1, hid, hsn, htn, hch]
  · rcases hfu : findUser (updateBalance st.users userId amount) userId
      with _ | w <;> constructor <;>
      simp [deductTokens, h1, hid, hsn, htn, hch, hfu]

/-- C8 witness: the amended validation behaviour at concrete inputs: a
zero amount throws the positive-amount error with the state unchanged, an
empty tool name throws the missing-parameters error, and a valid call
raises neither validation error. -/
theorem deductTokens_validation_exact_witness :
    deductTokens sampleState "u1" 0 "nbp-exchange-mcp" "getCurrencyRate"
        "{}" "t1" "a1" "ts" =
      (sampleState, .error
        "Failed to deduct tokens: Token amount must be positive") ∧
    deductTokens sampleState "u1" 1 "nbp-exchange-mcp" "" "{}" "t1" "a1"
        "ts" =
      (sampleState, .error
        "Failed to deduct tokens: Missing required parameters") ∧
    (deductTokens sampleState "u1" 1 "nbp-exchange-mcp" "getCurrencyRate"
        "{}" "t1" "a1" "ts").2 ≠
      .error "Failed to deduct tokens: Token amount must be positive" :=
  ⟨(deductTokens_validation_exact sampleState "u1" 0 "nbp-exchange-mcp"
      "getCurrencyRate" "{}" "t1" "a1" "ts").1 (by norm_num),
   (deductTokens_validation_exact sampleState "u1" 1 "nbp-exchange-mcp"
      "" "{}" "t1" "a1" "ts").2.1 (by norm_num) (by simp),
   ((deductTokens_validation_exact sampleState "u1" 1 "nbp-exchange-mcp"
      "getCurrencyRate" "{}" "t1" "a1" "ts").2.2 (by norm_num) (by simp)
      (by simp) (by simp)).1⟩

/-- C6: for a soft-deleted user the balance check reports
`sufficient = false` and `userDeleted = true` whatever the balance value;
the dispatcher then returns the account-deleted error, which differs from
every insufficient-balance message, leaves the ledger untouched and never
reaches the consumption step. -/
theorem deleted_user_rejected_distinctly
    (st : LedgerState) (userId : String) (u : UserRow)
    (toolName : String) (toolCost : Rat) (parametersJson : String)
    (execOutcome : ExecOutcome)
    (actionId transactionId timestamp : String)
    (hu : findUser st.users userId = some u)
    (hdel : u.is_deleted = true) :
    checkBalance st userId toolCost =
      { sufficient := false, currentBalance := u.current_token_balance,
        userDeleted := true } ∧
    executeToolWithTokenConsumption st toolName toolCost userId
        parametersJson execOutcome actionId transactionId timestamp =
      { state := st,
        result := .ok
          { contentText := formatAccountDeletedError toolName,
            isError := true, hasStructuredContent := false },
        steps := [.balanceChecked] } ∧
    WorkflowStep.consumeAttempted ∉
      (executeToolWithTokenConsumption st toolName toolCost userId
        parametersJson execOutcome actionId transactionId
        timestamp).steps ∧
    (∀ b c : Rat, formatAccountDeletedError toolName ≠
      formatInsufficientTokensError toolName b c) := by
  have hbc : checkBalance st userId toolCost =
      { sufficient := false, currentBalance := u.current_token_balance,
        userDeleted := true } := by
    simp [checkBalance, hu, hdel]
  have hrun : executeToolWithTokenConsumption st toolName toolCost userId
      parametersJson execOutcome actionId transactionId timestamp =
      { state := st,
        result := .ok
          { contentText := formatAccountDeletedError toolName,
            isError := true, hasStructuredContent := false },
        steps := [.balanceChecked] } := by
    simp [executeToolWithTokenConsumption, hbc]
  refine ⟨hbc, hrun, ?_, fun b c =>
    formatAccountDeletedError_ne_insufficient toolName b c⟩
  rw [hrun]
  simp

/-- C6 witness: the soft-deleted user `u2` holds 100 tokens, far more
than the cost of 1, yet the check reports insufficient with the deleted
flag and the dispatcher rejects with the account-deleted message. -/
theorem deleted_user_rejected_distinctly_witness :
    checkBalance deletedState "u2" 1 =
      { sufficient := false, currentBalance := 100,
        userDeleted := true } ∧
    executeToolWithTokenConsumption deletedState "getCurrencyRate" 1 "u2"
        "{}" (.ok "RES") "a1" "t1" "ts" =
      { state := deletedState,
        result := .ok
          { contentText := formatAccountDeletedError "getCurrencyRate",
            isError := true, hasStructuredContent := false },
        steps := [.balanceChecked] } ∧
    formatAccountDeletedError "getCurrencyRate" ≠
      formatInsufficientTokensError "getCurrencyRate" 100 1 := by
  have h := deleted_user_rejected_distinctly deletedState "u2"
    deletedUser "getCurrencyRate" 1 "{}" (.ok "RES") "a1" "t1" "ts"
    (by simp [deletedState, deletedUser, findUser, List.find?])
    (by simp [deletedUser])
  refine ⟨by rw [h.1]; norm_num [deletedUser], h.2.1, h.2.2.2 100 1⟩

/-- C10: every `mcp_actions` row the Token Consumer inserts carries
`success = 1` and `tokens_consumed` equal to the charged amount (the
action log is either untouched or extended by exactly that one row), and
a tool invocation whose business logic fails never reaches the
consumption step: the dispatcher leaves the ledger unchanged and returns
an error response, so no action-log row records the failed attempt. -/
theorem action_log_success_only
    (st : LedgerState) (userId : String) (amount : Rat)
    (serverName toolName parametersJson : String)
    (transactionId actionId timestamp : String)
    (st2 : LedgerState) (toolName2 : String) (toolCost2 : Rat)
    (userId2 parametersJson2 failMsg : String)
    (actionId2 transactionId2 timestamp2 : String) :
    ((deductTokens st userId amount serverName toolName parametersJson
        transactionId actionId timestamp).1.mcp_actions =
      st.mcp_actions ∨
     (deductTokens st userId amount serverName toolName parametersJson
        transactionId actionId timestamp).1.mcp_actions =
      st.mcp_actions ++
        [{ action_id := actionId, user_id := userId,
           mcp_server_name := serverName, tool_name := toolName,
           parameters := parametersJson, tokens_consumed := amount,
           success := 1, created_at := timestamp }]) ∧
    (executeToolWithTokenConsumption st2 toolName2 toolCost2 userId2
        parametersJson2 (.fail failMsg) actionId2 transactionId2
        timestamp2).state = st2 ∧
    WorkflowStep.consumeAttempted ∉
      (executeToolWithTokenConsumption st2 toolName2 toolCost2 userId2
        parametersJson2 (.fail failMsg) actionId2 transactionId2
        timestamp2).steps ∧
    (∃ resp, (executeToolWithTokenConsumption st2 toolName2 toolCost2
        userId2 parametersJson2 (.fail failMsg) actionId2 transactionId2
        timestamp2).result = .ok resp ∧ resp.isError = true) := by
  refine ⟨?_, ?_, ?_, ?_⟩
  · by_cases h1 : amount ≤ 0
    · exact .inl (by simp [deductTokens, h1])
    by_cases h2 : userId = "" ∨ serverName = "" ∨ toolName = ""
    · refine .inl ?_
      simp only [deductTokens, if_neg h1, if_pos h2]
    · right
      by_cases hch : updateChanges st.users userId = 0
      · simp [deductTokens, h1, h2, hch]
      · rcases hfu : findUser (updateBalance st.users userId amount)
          userId with _ | w <;>
          simp [deductTokens, h1, h2, hch, hfu]
  all_goals
    by_cases hd : (checkBalance st2 userId2 toolCost2).userDeleted <;>
      by_cases hs : (checkBalance st2 userId2 toolCost2).sufficient <;>
      simp [executeToolWithTokenConsumption, hd, hs]

/-- C4 counterexample: the claim is false on the API-key path.  For the
user with balance 5 and a 200-day range, the cited API-key handler runs
the balance check as its very first step (the trace records it) and never
produces the date-range validation error: the claim's "returns a
validation error without ever performing the balance check" fails. -/
theorem currencyHistory_apiKey_checks_balance_counterexample :
    daysDiff ⟨2025, 1, 1⟩ ⟨2025, 7, 20⟩ = 200 ∧
    (executeCurrencyHistoryToolApiKey sampleState "USD" ⟨2025, 1, 1⟩
        ⟨2025, 7, 20⟩ "u1" "{}" (.fail "NBP API request failed: 400")
        "a1" "t1" "ts").steps =
      [.balanceChecked, .executed] ∧
    (executeCurrencyHistoryToolApiKey sampleState "USD" ⟨2025, 1, 1⟩
        ⟨2025, 7, 20⟩ "u1" "{}" (.fail "NBP API request failed: 400")
        "a1" "t1" "ts").result ≠
      .ok { contentText :=
              "Error: Date range exceeds maximum of 93 days. Please reduce the range.",
            isError := true, hasStructuredContent := false } := by
  refine ⟨by decide, ?_, ?_⟩
  · norm_num [executeCurrencyHistoryToolApiKey, checkBalance,
      sampleState, sampleUser, findUser, List.find?]
  · norm_num [executeCurrencyHistoryToolApiKey, checkBalance,
      sampleState, sampleUser, findUser, List.find?]
    simp

/-- C4 (amended): on the shared extractor used by the OAuth path (and by
the delegating revision of the API-key handler), an invalid date range
(span over 93 days, or end before start) returns the corresponding
validation error with an empty step trace: no balance check, no
consumption, ledger unchanged.  On the cited API-key handler revision the
balance check is always the first step performed, before any date
validation can reject the request; still, when the fetch then fails (the
upstream API rejects the invalid range), no consumption is attempted and
the ledger is unchanged. -/
theorem currencyHistory_validation_before_balance_check
    (st : LedgerState) (currencyCode : String)
    (startDate endDate : CivilDate) (userId parametersJson : String)
    (execOutcome : ExecOutcome) (failMsg : String)
    (actionId transactionId timestamp : String) :
    (93 < daysDiff startDate endDate →
      executeGetCurrencyHistory st currencyCode startDate endDate userId
          parametersJson execOutcome actionId transactionId timestamp =
        { state := st,
          result := .ok
            ⟨"Error: Date range exceeds maximum of 93 days. Please reduce the range.",
             true, false⟩,
          steps := [] }) ∧
    (daysDiff startDate endDate < 0 →
      executeGetCurrencyHistory st currencyCode startDate endDate userId
          parametersJson execOutcome actionId transactionId timestamp =
        { state := st,
          result := .ok
            ⟨"Error: End date must be after start date.", true, false⟩,
          steps := [] }) ∧
    (executeCurrencyHistoryToolApiKey st currencyCode startDate endDate
        userId parametersJson (.fail failMsg) actionId transactionId
        timestamp).state = st ∧
    WorkflowStep.consumeAttempted ∉
      (executeCurrencyHistoryToolApiKey st currencyCode startDate endDate
        userId parametersJson (.fail failMsg) actionId transactionId
        timestamp).steps ∧
    (executeCurrencyHistoryToolApiKey st currencyCode startDate endDate
        userId parametersJson (.fail failMsg) actionId transactionId
        timestamp).steps.head? = some .balanceChecked := by
  refine ⟨fun h93 => ?_, fun hneg => ?_, ?_, ?_, ?_⟩
  · simp [executeGetCurrencyHistory, h93]
  · have h93 : ¬ 93 < daysDiff startDate endDate := by omega
    simp [executeGetCurrencyHistory, h93, hneg]
  all_goals
    by_cases hd : (checkBalance st userId 1).userDeleted <;>
      by_cases hs : (checkBalance st userId 1).sufficient <;>
      simp [executeCurrencyHistoryToolApiKey, hd, hs]

/-- C4 witness: the amended behaviour at concrete dates: the 200-day
range `2025-01-01 .. 2025-07-20` is rejected by the extractor with the
range message and an empty trace, the reversed range
`2025-03-01 .. 2025-02-01` with the order message, and for both the
API-key handler's first performed step is the balance check while
consumption is never attempted. -/
theorem currencyHistory_validation_before_balance_check_witness :
    executeGetCurrencyHistory sampleState "USD" ⟨2025, 1, 1⟩ ⟨2025, 7, 20⟩
        "u1" "{}" (.fail "NBP API request failed: 400") "a1" "t1" "ts" =
      { state := sampleState,
        result := .ok
          ⟨"Error: Date range exceeds maximum of 93 days. Please reduce the range.",
           true, false⟩,
        steps := [] } ∧
    executeGetCurrencyHistory sampleState "USD" ⟨2025, 3, 1⟩ ⟨2025, 2, 1⟩
        "u1" "{}" (.fail "NBP API request failed: 400") "a1" "t1" "ts" =
      { state := sampleState,
        result := .ok
          ⟨"Error: End date must be after start date.", true, false⟩,
        steps := [] } ∧
    (executeCurrencyHistoryToolApiKey sampleState "USD" ⟨2025, 1, 1⟩
        ⟨2025, 7, 20⟩ "u1" "{}" (.fail "NBP API request failed: 400")
        "a1" "t1" "ts").steps.head? = some .balanceChecked :=
  ⟨(currencyHistory_validation_before_balance_check sampleState "USD"
      ⟨2025, 1, 1⟩ ⟨2025, 7, 20⟩ "u1" "{}"
      (.fail "NBP API request failed: 400")
      "NBP API request failed: 400" "a1" "t1" "ts").1 (by decide),
   (currencyHistory_validation_before_balance_check sampleState "USD"
      ⟨2025, 3, 1⟩ ⟨2025, 2, 1⟩ "u1" "{}"
      (.fail "NBP API request failed: 400")
      "NBP API request failed: 400" "a1" "t1" "ts").2.1 (by decide),
   (currencyHistory_validation_before_balance_check sampleState "USD"
      ⟨2025, 1, 1⟩ ⟨2025, 7, 20⟩ "u1" "{}"
      (.fail "NBP API request failed: 400")
      "NBP API request failed: 400" "a1" "t1" "ts").2.2.2.2⟩

/-- C5 counterexample: with the identical tool call (same user, same
ledger, same shaped fetch result), the OAuth adapter's getCurrencyRate
handler and the API-key adapter's executor return different responses:
the OAuth success carries `structuredContent`, the API-key success does
not. -/
theorem dual_path_rate_response_counterexample :
    (getCurrencyRateOAuthHandler sampleState "u1" "{}" (.ok "RATERESULT")
        "a1" "t1" "ts").result =
      .ok { contentText := "RATERESULT", isError := false,
            hasStructuredContent := true } ∧
    (executeCurrencyRateToolApiKey sampleState "u1" "{}"
        (.ok "RATERESULT") "a1" "t1" "ts").result =
      .ok { contentText := "RATERESULT", isError := false,
            hasStructuredContent := false } ∧
    (getCurrencyRateOAuthHandler sampleState "u1" "{}" (.ok "RATERESULT")
        "a1" "t1" "ts").result ≠
      (executeCurrencyRateToolApiKey sampleState "u1" "{}"
        (.ok "RATERESULT") "a1" "t1" "ts").result := by
  refine ⟨?_, ?_, ?_⟩ <;>
    simp [getCurrencyRateOAuthHandler, executeCurrencyRateToolApiKey,
      checkBalance, consumeTokensWithRetry, sampleState, sampleUser,
      findUser, List.find?] <;> norm_num

/-- C5 (amended): for a live, sufficiently funded user and the same
fetch result, the two protocol-path getCurrencyRate implementations agree
on the content text and on the absence of an error, but their success
responses are not structurally identical: the OAuth handler returns a
`structuredContent` mirror and the API-key executor does not, so the two
responses always differ. -/
theorem dual_path_rate_same_text_different_shape
    (st : LedgerState) (userId : String) (u : UserRow)
    (parametersJson redacted : String)
    (actionId transactionId timestamp : String)
    (hu : findUser st.users userId = some u)
    (hdel : u.is_deleted = false) (hid : userId ≠ "")
    (hsuff : 1 ≤ u.current_token_balance) :
    (getCurrencyRateOAuthHandler st userId parametersJson (.ok redacted)
        actionId transactionId timestamp).result =
      .ok { contentText := redacted, isError := false,
            hasStructuredContent := true } ∧
    (executeCurrencyRateToolApiKey st userId parametersJson (.ok redacted)
        actionId transactionId timestamp).result =
      .ok { contentText := redacted, isError := false,
            hasStructuredContent := false } ∧
    (getCurrencyRateOAuthHandler st userId parametersJson (.ok redacted)
        actionId transactionId timestamp).result ≠
      (executeCurrencyRateToolApiKey st userId parametersJson
        (.ok redacted) actionId transactionId timestamp).result := by
  have hbc : checkBalance st userId 1 =
      { sufficient := true, currentBalance := u.current_token_balance,
        userDeleted := false } := by
    simp [checkBalance, hu, hdel, hsuff]
  have hcons : ∀ transactionId0,
      (consumeTokensWithRetry st userId 1 "nbp-exchange-mcp"
        "getCurrencyRate" parametersJson redacted true actionId
        transactionId0 timestamp).2.isOk = true := by
    intro t0
    have hle : ¬ (1 : Rat) ≤ 0 := by norm_num
    by_cases hdup : st.mcp_actions.any (fun a => a.action_id == actionId) <;>
      simp [consumeTokensWithRetry, hle, hid, hdup, hu, Except.isOk,
        Except.toBool]
  refine ⟨?_, ?_, ?_⟩
  · rcases hc : consumeTokensWithRetry st userId 1 "nbp-exchange-mcp"
      "getCurrencyRate" parametersJson redacted true actionId
      transactionId timestamp with ⟨st1, r⟩
    have := hcons transactionId
    rw [hc] at this
    cases r with
    | error e => simp [Except.isOk, Except.toBool] at this
    | ok v => simp [getCurrencyRateOAuthHandler, hbc, hc]
  · rcases hc : consumeTokensWithRetry st userId 1 "nbp-exchange-mcp"
      "getCurrencyRate" parametersJson redacted true actionId
      transactionId timestamp with ⟨st1, r⟩
    have := hcons transactionId
    rw [hc] at this
    cases r with
    | error e => simp [Except.isOk, Except.toBool] at this
    | ok v => simp [executeCurrencyRateToolApiKey, hbc, hc]
  · rcases hc : consumeTokensWithRetry st userId 1 "nbp-exchange-mcp"
      "getCurrencyRate" parametersJson redacted true actionId
      transactionId timestamp with ⟨st1, r⟩
    have := hcons transactionId
    rw [hc] at this
    cases r with
    | error e => simp [Except.isOk, Except.toBool] at this
    | ok v =>
        simp [getCurrencyRateOAuthHandler, executeCurrencyRateToolApiKey,
          hbc, hc]

/-- C5 witness: the amended parity statement at the concrete sample
ledger and a concrete fetch result. -/
theorem dual_path_rate_same_text_different_shape_witness :
    (getCurrencyRateOAuthHandler sampleState "u1" "{}" (.ok "RATERESULT")
        "a1" "t1" "ts").result =
      .ok { contentText := "RATERESULT", isError := false,
            hasStructuredContent := true } ∧
    (executeCurrencyRateToolApiKey sampleState "u1" "{}"
        (.ok "RATERESULT") "a1" "t1" "ts").result =
      .ok { contentText := "RATERESULT", isError := false,
            hasStructuredContent := false } :=
  ⟨(dual_path_rate_same_text_different_shape sampleState "u1" sampleUser
      "{}" "RATERESULT" "a1" "t1" "ts"
      (by simp [sampleState, sampleUser, findUser, List.find?])
      (by simp [sampleUser]) (by simp)
      (by norm_num [sampleUser])).1,
   (dual_path_rate_same_text_different_shape sampleState "u1" sampleUser
      "{}" "RATERESULT" "a1" "t1" "ts"
      (by simp [sampleState, sampleUser, findUser, List.find?])
      (by simp [sampleUser]) (by simp)
      (by norm_num [sampleUser])).2.1⟩

end NbpExchange
